import Mathlib

/-!
Verification of the mood-aware ordering engine in `src/main.py`.

The numeric code is embedded over the real numbers `ℝ`; floating-point
arithmetic is idealized as exact real arithmetic except where a claim is
specifically about float behaviour (underflow / NaN), for which a second,
clearly named model (`...F` definitions) captures float64 exp underflow and
the NaN produced by `0.0 / 0.0`.  Randomness (`np.random`) is abstracted as
an explicit selection stream passed to the sampler; the permutation
properties proved hold for every stream.
-/

namespace MoodPlayer

/-- TrackRecord: the dictionary built in `main` (src/main.py lines 213-220),
with the six fields written to the cache. -/
structure Song where
  file : String
  title : String
  artist : String
  album : String
  full_title : String
  mood_vector : List ℝ

/-- Model of `np.clip(x, lo, hi)` = `np.minimum(np.maximum(x, lo), hi)`. -/
noncomputable def npClip (x lo hi : ℝ) : ℝ := min (max x lo) hi

/-- Model of `mood_similarity` (src/main.py lines 177-179):
`np.linalg.norm(np.array(user_mood) - np.array(song_mood))`, the Euclidean
(L2) norm of the componentwise difference. -/
noncomputable def mood_similarity (user_mood song_mood : List ℝ) : ℝ :=
  Real.sqrt (((user_mood.zip song_mood).map (fun p => (p.1 - p.2) ^ 2)).sum)

/-- Model of `calculate_probabilities` (src/main.py lines 181-186) over exact
real arithmetic: per-track Euclidean distance to the target, weight
`exp(-distance / temperature)`, then normalization by the sum of weights. -/
noncomputable def calculate_probabilities (songs : List Song) (user_mood : List ℝ)
    (temperature : ℝ) : List ℝ :=
  let distances := songs.map (fun s => mood_similarity user_mood s.mood_vector)
  let similarity := distances.map (fun d => Real.exp (-d / temperature))
  similarity.map (fun w => w / similarity.sum)

/-- Unnormalized weights of `calculate_probabilities`, as a single map. -/
noncomputable def weights (songs : List Song) (user_mood : List ℝ) (temperature : ℝ) :
    List ℝ :=
  songs.map (fun s => Real.exp (-(mood_similarity user_mood s.mood_vector) / temperature))

/-- Distance of track `k` to the target mood, as read off by
`calculate_probabilities`. -/
noncomputable def trackDist (songs : List Song) (user_mood : List ℝ)
    (k : Fin songs.length) : ℝ :=
  mood_similarity user_mood (songs.get k).mood_vector

theorem calc_prob_eq (songs : List Song) (u : List ℝ) (T : ℝ) :
    calculate_probabilities songs u T =
      (weights songs u T).map (fun w => w / (weights songs u T).sum) := by
  simp only [calculate_probabilities, weights, List.map_map, Function.comp_def]

theorem calc_prob_length (songs : List Song) (u : List ℝ) (T : ℝ) :
    (calculate_probabilities songs u T).length = songs.length := by
  simp [calculate_probabilities]

/-- Entry `k` of the probability vector. -/
noncomputable def probAt (songs : List Song) (u : List ℝ) (T : ℝ)
    (k : Fin songs.length) : ℝ :=
  (calculate_probabilities songs u T).get ⟨k.1, by rw [calc_prob_length]; exact k.2⟩

theorem weights_length (songs : List Song) (u : List ℝ) (T : ℝ) :
    (weights songs u T).length = songs.length := by
  simp [weights]

theorem weights_pos (songs : List Song) (u : List ℝ) (T : ℝ) :
    ∀ w ∈ weights songs u T, 0 < w := by
  intro w hw
  rcases List.mem_map.1 hw with ⟨s, _, rfl⟩
  exact Real.exp_pos _

theorem list_sum_nonneg_of_nonneg (l : List ℝ) (h : ∀ x ∈ l, 0 ≤ x) : 0 ≤ l.sum := by
  induction l with
  | nil => simp
  | cons x xs ih =>
    simp only [List.sum_cons]
    have hx := h x (by simp)
    have hxs := ih (fun y hy => h y (by simp [hy]))
    linarith

theorem list_sum_pos_of_pos (l : List ℝ) (h : ∀ x ∈ l, 0 < x) (hne : l ≠ []) :
    0 < l.sum := by
  cases l with
  | nil => exact absurd rfl hne
  | cons x xs =>
    simp only [List.sum_cons]
    have hx := h x (by simp)
    have hxs := list_sum_nonneg_of_nonneg xs (fun y hy => le_of_lt (h y (by simp [hy])))
    linarith

theorem list_sum_map_div (l : List ℝ) (c : ℝ) :
    (l.map (fun x => x / c)).sum = l.sum / c := by
  induction l with
  | nil => simp
  | cons x xs ih => simp [ih, add_div]

theorem weights_ne_nil (songs : List Song) (u : List ℝ) (T : ℝ) (hne : songs ≠ []) :
    weights songs u T ≠ [] := by
  intro h
  apply hne
  have hl := congrArg List.length h
  simp only [weights, List.length_map, List.length_nil] at hl
  exact List.length_eq_zero.mp hl

theorem weights_sum_pos (songs : List Song) (u : List ℝ) (T : ℝ) (hne : songs ≠ []) :
    0 < (weights songs u T).sum :=
  list_sum_pos_of_pos _ (weights_pos songs u T) (weights_ne_nil songs u T hne)

theorem calc_prob_sum (songs : List Song) (u : List ℝ) (T : ℝ) (hne : songs ≠ []) :
    (calculate_probabilities songs u T).sum = 1 := by
  rw [calc_prob_eq, list_sum_map_div]
  exact div_self (ne_of_gt (weights_sum_pos songs u T hne))

theorem probAt_eq (songs : List Song) (u : List ℝ) (T : ℝ) (k : Fin songs.length) :
    probAt songs u T k =
      Real.exp (-(trackDist songs u k) / T) / (weights songs u T).sum := by
  have h := calc_prob_eq songs u T
  simp only [probAt, List.get_eq_getElem]
  rw [List.getElem_of_eq h]
  rw [List.getElem_map]
  simp [weights, trackDist, List.get_eq_getElem]

/-- Tolerance used by `np.random.choice` to validate `p`:
`np.sqrt(np.finfo(np.float64).eps)` with `eps = 2⁻⁵²`, hence exactly `2⁻²⁶`. -/
noncomputable def npAtol : ℝ := 1 / 2 ^ 26

open Classical in
/-- Number of strictly positive entries of `p`
(`np.count_nonzero(p > 0)` in `np.random.choice`). -/
noncomputable def countPos (l : List ℝ) : ℕ :=
  l.countP (fun x => decide (0 < x))

/-- Draw-without-replacement loop: at each step one remaining item is selected
(the random draw is abstracted as the stream `sel`; the selected position is
`sel k` reduced modulo the current pool size) and removed from the pool.  This
is the sampling semantics of `np.random.choice(n, size=n, replace=False, p=...)`:
the net effect of its rejection loop is a sequence of distinct draws from the
shrinking candidate pool. -/
def sampleLoop (sel : ℕ → ℕ) : ℕ → List ℕ → List ℕ
  | _, [] => []
  | k, x :: xs =>
    (x :: xs).get ⟨sel k % (x :: xs).length, Nat.mod_lt _ (Nat.succ_pos _)⟩ ::
      sampleLoop sel (k + 1) ((x :: xs).eraseIdx (sel k % (x :: xs).length))
termination_by k l => l.length
decreasing_by
  have h : sel k % (x :: xs).length < (x :: xs).length := Nat.mod_lt _ (Nat.succ_pos _)
  have h2 := List.length_eraseIdx_of_lt h
  omega

open Classical in
/-- Model of `np.random.choice(n, size=n, replace=False, p=p)` as called at
src/main.py line 191: the validation checks it performs on `p` (size match,
non-negativity, sum within `npAtol` of 1, enough nonzero entries), in source
order, followed by the without-replacement draw.  The check
`a must be greater than 0 unless no samples are taken` never fires here since
`size = n = pop_size`. -/
noncomputable def np_choice_perm (n : ℕ) (p : List ℝ) (sel : ℕ → ℕ) :
    Except String (List ℕ) :=
  if p.length ≠ n then .error "a and p must have same size"
  else if ∃ x ∈ p, x < 0 then .error "probabilities are not non-negative"
  else if |p.sum - 1| > npAtol then .error "probabilities do not sum to 1"
  else if countPos p < n then .error "Fewer non-zero entries in p than size"
  else .ok (sampleLoop sel 0 (List.range n))

/-- Model of `generate_playlist_order` (src/main.py lines 188-192). -/
noncomputable def generate_playlist_order (songs : List Song) (user_mood : List ℝ)
    (temperature : ℝ) (sel : ℕ → ℕ) : Except String (List ℕ) :=
  np_choice_perm songs.length (calculate_probabilities songs user_mood temperature) sel

theorem perm_get_cons_eraseIdx :
    ∀ (l : List ℕ) (i : Fin l.length), (l.get i :: l.eraseIdx i.1).Perm l
  | x :: xs, ⟨0, _⟩ => by
    simp [List.eraseIdx]
  | x :: xs, ⟨n + 1, h⟩ => by
    simp only [List.get, List.eraseIdx]
    exact (List.Perm.swap x _ _).trans
      (List.Perm.cons x (perm_get_cons_eraseIdx xs ⟨n, Nat.lt_of_succ_lt_succ h⟩))

theorem sampleLoop_perm (sel : ℕ → ℕ) :
    ∀ (k : ℕ) (l : List ℕ), (sampleLoop sel k l).Perm l
  | _, [] => by simp [sampleLoop]
  | k, x :: xs => by
    simp only [sampleLoop]
    refine List.Perm.trans (List.Perm.cons _ (sampleLoop_perm sel (k + 1) _)) ?_
    exact perm_get_cons_eraseIdx (x :: xs)
      ⟨sel k % (x :: xs).length, Nat.mod_lt _ (Nat.succ_pos _)⟩
termination_by k l => l.length
decreasing_by
  have h : sel k % (x :: xs).length < (x :: xs).length := Nat.mod_lt _ (Nat.succ_pos _)
  have h2 := List.length_eraseIdx_of_lt h
  omega

/-! ### Float-underflow model of the distribution

`np.exp` is IEEE float64 exp: it underflows to exactly `0.0` once its argument
is below roughly `-745.1`; and `0.0 / 0.0` is NaN (no exception is raised,
only a runtime warning).  The `...F` definitions model exactly these two float
behaviours on top of exact real arithmetic; `Option ℝ` values use `none` for
NaN. -/

/-- Model of float64 `np.exp`: underflows to exactly 0 below the cutoff
(float64 exp returns 0.0 for arguments under about -745.1; the exact cutoff is
irrelevant to the claims, any argument ≤ -746 certainly underflows). -/
noncomputable def expF (x : ℝ) : ℝ :=
  if x ≤ -746 then 0 else Real.exp x

open Classical in
/-- Model of float division where `none` stands for the NaN produced by
`0.0 / 0.0` (in `calculate_probabilities` the numerator is one of the summed
weights, so a zero denominator forces a zero numerator). -/
noncomputable def fdivNaN (a b : ℝ) : Option ℝ :=
  if b = 0 then none else some (a / b)

/-- Unnormalized weights of `calculate_probabilities` under the float64
underflow model. -/
noncomputable def weightsF (songs : List Song) (user_mood : List ℝ)
    (temperature : ℝ) : List ℝ :=
  songs.map (fun s => expF (-(mood_similarity user_mood s.mood_vector) / temperature))

/-- Model of `calculate_probabilities` (src/main.py lines 181-186) with
float64 exp underflow and NaN division: identical to
`calculate_probabilities` except that `np.exp` can underflow to 0 and the
normalizing division can produce NaN.  Note the function body has no error
path: the source raises nothing here. -/
noncomputable def calculate_probabilitiesF (songs : List Song) (user_mood : List ℝ)
    (temperature : ℝ) : List (Option ℝ) :=
  (weightsF songs user_mood temperature).map
    (fun w => fdivNaN w (weightsF songs user_mood temperature).sum)

open Classical in
/-- Model of the `np.random.choice` validation under the NaN model: a NaN
anywhere in `p` is rejected with `probabilities contain NaN` (numpy computes
the Kahan sum of `p` first and raises on NaN before the other checks). -/
noncomputable def np_choice_permF (n : ℕ) (p : List (Option ℝ)) (sel : ℕ → ℕ) :
    Except String (List ℕ) :=
  if p.length ≠ n then .error "a and p must have same size"
  else if ∃ x ∈ p, x = none then .error "probabilities contain NaN"
  else if ∃ x ∈ p, ∃ v, x = some v ∧ v < 0 then .error "probabilities are not non-negative"
  else if |(p.map (fun o => o.getD 0)).sum - 1| > npAtol then
    .error "probabilities do not sum to 1"
  else if countPos (p.map (fun o => o.getD 0)) < n then
    .error "Fewer non-zero entries in p than size"
  else .ok (sampleLoop sel 0 (List.range n))

/-- Model of `generate_playlist_order` (src/main.py lines 188-192) under the
float64 underflow/NaN model. -/
noncomputable def generate_playlist_orderF (songs : List Song) (user_mood : List ℝ)
    (temperature : ℝ) (sel : ℕ → ℕ) : Except String (List ℕ) :=
  np_choice_permF songs.length (calculate_probabilitiesF songs user_mood temperature) sel

/-! ### Feature extractor -/

/-- Raw audio features computed inside the `try` block of
`auto_generate_mood`: tempo (librosa.beat.beat_track), mean RMS amplitude and
mean spectral centroid. -/
structure AudioFeatures where
  tempo : ℝ
  rms : ℝ
  spectral_centroid : ℝ

/-- Model of `auto_generate_mood` (src/main.py lines 41-55).  The librosa
analysis is external code; its outcome is abstracted as an `Except` value:
`ok` carries the three raw features, `error` models any exception raised
anywhere inside the `try` block (corrupt file, decode error, degenerate
signal).  The `except Exception` handler returns the neutral mood. -/
noncomputable def auto_generate_mood (analysis : Except String AudioFeatures) : List ℝ :=
  match analysis with
  | .ok f =>
      [npClip (f.tempo / 300) 0 1,
       npClip f.rms 0 1,
       npClip (f.spectral_centroid / 10000) 0 1,
       npClip (f.tempo / 300) 0 1]
  | .error _ => [0.5, 0.5, 0.5, 0.5]

/-! ### Interactive mood prompt -/

/-- Model of Python's builtin `str.strip()`: drop leading and trailing
whitespace. -/
def pyStrip (s : String) : String :=
  ⟨((s.data.dropWhile Char.isWhitespace).reverse.dropWhile Char.isWhitespace).reverse⟩

/-- Accumulating pass over the characters for `str.split(",")`. -/
def splitCommaAux : List Char → List Char → List String
  | acc, [] => [⟨acc⟩]
  | acc, c :: cs =>
      if c = ',' then ⟨acc⟩ :: splitCommaAux [] cs
      else splitCommaAux (acc ++ [c]) cs

/-- Model of Python's builtin `str.split(",")`: cut at every comma, keeping
empty pieces (`"".split(",") == [""]`, `"1,".split(",") == ["1", ""]`). -/
def pySplitComma (s : String) : List String := splitCommaAux [] s.data

/-- Model of `ask_user_mood` (src/main.py lines 158-175).  `pf` abstracts the
Python builtin `float(...)` (`none` = the string raises `ValueError`); `rand`
abstracts `np.random.rand(4).tolist()`.  The source strips the input, returns
the random mood on empty input, parses the comma-separated pieces (a
`ValueError` from any `float(x)` aborts the whole comprehension), raises
`ValueError` on a wrong count, and the `except ValueError` handler returns
the neutral mood; otherwise each component is passed through
`np.clip(x, 0, 1)`. -/
noncomputable def ask_user_mood (pf : String → Option ℝ) (raw : String)
    (rand : List ℝ) : List ℝ :=
  if pyStrip raw = "" then rand
  else
    match (pySplitComma (pyStrip raw)).mapM pf with
    | none => [0.5, 0.5, 0.5, 0.5]
    | some parts =>
        if parts.length = 4 then parts.map (fun x => npClip x 0 1)
        else [0.5, 0.5, 0.5, 0.5]

/-! ### Cache model

The cache artifact is a JSON file.  The JSON text encoding itself is produced
and consumed by Python's `json` library (external to the source); the model
therefore represents the artifact by the JSON value it parses to, with a
separate constructor for a file whose contents are not valid JSON. -/

/-- JSON values (numbers idealized as reals, matching the rest of the
embedding). -/
inductive Json where
  | null : Json
  | bool (b : Bool) : Json
  | num (x : ℝ) : Json
  | str (s : String) : Json
  | arr (xs : List Json) : Json
  | obj (kvs : List (String × Json)) : Json

/-- Python truthiness of a parsed JSON value, as tested by `if not songs:`
(src/main.py line 207). -/
def pyTruthy : Json → Prop
  | .null => False
  | .bool b => b = true
  | .num x => x ≠ 0
  | .str s => s ≠ ""
  | .arr xs => xs ≠ []
  | .obj kvs => kvs ≠ []

/-- State of the cache file on disk: absent, present but not valid JSON, or
present and parsing to a JSON value. -/
inductive CacheFile where
  | absent : CacheFile
  | invalid : CacheFile
  | valid (v : Json) : CacheFile

/-- Model of `load_cache` (src/main.py lines 144-148): returns `None` when the
file does not exist, otherwise returns whatever `json.load` produces; a file
that is not valid JSON makes `json.load` raise `JSONDecodeError`, which
`load_cache` does not catch. -/
def load_cache : CacheFile → Except String (Option Json)
  | .absent => .ok none
  | .invalid => .error "json.decoder.JSONDecodeError"
  | .valid v => .ok (some v)

/-- Dictionary field access on a parsed JSON value, as performed by the
consumers of the cache (`song["title"]`, `song["mood_vector"]`, ...). -/
def getField (v : Json) (key : String) : Option Json :=
  match v with
  | .obj kvs => kvs.lookup key
  | _ => none

/-- Serialization of one song record: the dict literal built in `main`
(src/main.py lines 213-220). -/
def encodeSong (s : Song) : Json :=
  .obj [("file", .str s.file), ("title", .str s.title), ("artist", .str s.artist),
        ("album", .str s.album), ("full_title", .str s.full_title),
        ("mood_vector", .arr (s.mood_vector.map Json.num))]

/-- Serialization of the whole library: `json.dump(songs, ...)` writes the
list of dicts. -/
def encodeSongs (songs : List Song) : Json :=
  .arr (songs.map encodeSong)

/-- Model of `save_cache` (src/main.py lines 150-152): opening with mode "w"
fully overwrites the artifact with the serialization of `songs`.  The
faithful textual round-trip (`json.loads(json.dumps(v)) == v`) is a property
of Python's json library, external to the source; it is modelled by the file
carrying the JSON value itself. -/
def save_cache (songs : List Song) : CacheFile :=
  .valid (encodeSongs songs)

open Classical in
/-- Model of the cache/scan phase of `main` (src/main.py lines 199-221):
`songs = None; if not force_rescan: songs = load_cache(); if not songs:`
scan, extract and `save_cache`.  `fresh` abstracts the songs the scan and
extraction phase would build; the returned triple is (whether the
scan+extraction phase ran, the songs value used afterwards, the resulting
cache file). -/
noncomputable def cache_phase (force_rescan : Bool) (cache : CacheFile)
    (fresh : List Song) : Except String (Bool × Json × CacheFile) :=
  match (if force_rescan then Except.ok none else load_cache cache) with
  | .error e => .error e
  | .ok (some v) =>
      if pyTruthy v then .ok (false, v, cache)
      else .ok (true, encodeSongs fresh, save_cache fresh)
  | .ok none => .ok (true, encodeSongs fresh, save_cache fresh)

/-- Shape of the artifact the rest of `main` consumes without error: a JSON
array of objects carrying the six keys written at src/main.py lines 213-220,
with a 4-component numeric `mood_vector` (iterated by `display_playlist` and
`calculate_probabilities`) and string display fields. -/
def isTrackShape (v : Json) : Prop :=
  (∃ s, getField v "file" = some (.str s)) ∧
  (∃ s, getField v "title" = some (.str s)) ∧
  (∃ s, getField v "artist" = some (.str s)) ∧
  (∃ s, getField v "album" = some (.str s)) ∧
  (∃ s, getField v "full_title" = some (.str s)) ∧
  (∃ ms : List ℝ, getField v "mood_vector" = some (.arr (ms.map Json.num)) ∧ ms.length = 4)

/-- Shape of a well-formed cache artifact: a JSON array of track records. -/
def isLibraryShape (v : Json) : Prop :=
  ∃ xs, v = Json.arr xs ∧ ∀ s ∈ xs, isTrackShape s

/-! ## Claims -/

/-- C1: for every non-empty library, every target mood and every temperature
> 0, `calculate_probabilities` (Euclidean distance → `exp(-d/T)` weights →
normalization) yields one entry per track, every entry ≥ 0, and the entries
sum to 1.0 within 1e-6 — unconditionally; and additionally, whenever all
distances are pairwise distinct, the track with minimum distance has the
strictly highest probability (the strict-max part is an inner implication,
so the unconditional parts hold also for single-track and tied-distance
libraries). -/
theorem C1_distribution_validity (songs : List Song) (u : List ℝ) (T : ℝ)
    (hne : songs ≠ []) (hT : 0 < T) :
    (calculate_probabilities songs u T).length = songs.length ∧
    (∀ p ∈ calculate_probabilities songs u T, 0 ≤ p) ∧
    |(calculate_probabilities songs u T).sum - 1| ≤ 1e-6 ∧
    (∀ i j : Fin songs.length,
      (∀ a b : Fin songs.length, a ≠ b →
        trackDist songs u a ≠ trackDist songs u b) →
      (∀ k, trackDist songs u i ≤ trackDist songs u k) → j ≠ i →
      probAt songs u T j < probAt songs u T i) := by
  have hS := weights_sum_pos songs u T hne
  refine ⟨calc_prob_length songs u T, ?_, ?_, ?_⟩
  · intro p hp
    rw [calc_prob_eq] at hp
    rcases List.mem_map.1 hp with ⟨w, hw, rfl⟩
    exact le_of_lt (div_pos (weights_pos songs u T w hw) hS)
  · rw [calc_prob_sum songs u T hne]
    norm_num
  · intro i j hdist hmin hji
    rw [probAt_eq, probAt_eq]
    have hlt : trackDist songs u i < trackDist songs u j :=
      lt_of_le_of_ne (hmin j) (hdist i j (Ne.symm hji))
    have h1 : trackDist songs u i / T < trackDist songs u j / T := by
      rw [div_eq_mul_inv, div_eq_mul_inv]
      exact mul_lt_mul_of_pos_right hlt (inv_pos.2 hT)
    have h2 : Real.exp (-(trackDist songs u j) / T) <
        Real.exp (-(trackDist songs u i) / T) := by
      apply Real.exp_lt_exp.2
      rw [neg_div, neg_div]
      exact neg_lt_neg h1
    rw [div_eq_mul_inv, div_eq_mul_inv]
    exact mul_lt_mul_of_pos_right h2 (inv_pos.2 hS)

/-- Concrete two-track library used to instantiate the claims. -/
noncomputable def exSongA : Song :=
  ⟨"a.flac", "A", "artistA", "albumA", "fullA", [0, 0, 0, 0]⟩

/-- Second concrete track, at Euclidean distance 1 from the origin mood. -/
noncomputable def exSongB : Song :=
  ⟨"b.flac", "B", "artistB", "albumB", "fullB", [1, 0, 0, 0]⟩

theorem exDistA :
    trackDist [exSongA, exSongB] [0, 0, 0, 0] ⟨0, by norm_num⟩ = 0 := by
  simp [trackDist, mood_similarity, exSongA]

theorem exDistB :
    trackDist [exSongA, exSongB] [0, 0, 0, 0] ⟨1, by norm_num⟩ = 1 := by
  simp only [trackDist, mood_similarity, exSongB]
  norm_num

/-- C1 witness: the two-track library with target `[0,0,0,0]` and
temperature 1; the unconditional parts are instantiated directly and the
strict-max part at track 0, the unique closest track. -/
theorem C1_distribution_validity_witness :
    (calculate_probabilities [exSongA, exSongB] [0, 0, 0, 0] 1).length = 2 ∧
    (∀ p ∈ calculate_probabilities [exSongA, exSongB] [0, 0, 0, 0] 1, 0 ≤ p) ∧
    |(calculate_probabilities [exSongA, exSongB] [0, 0, 0, 0] 1).sum - 1| ≤ 1e-6 ∧
    probAt [exSongA, exSongB] [0, 0, 0, 0] 1 ⟨1, by norm_num⟩ <
      probAt [exSongA, exSongB] [0, 0, 0, 0] 1 ⟨0, by norm_num⟩ := by
  have h := C1_distribution_validity [exSongA, exSongB] [0, 0, 0, 0] 1
    (by simp) (by norm_num)
  have hAB : trackDist [exSongA, exSongB] [0, 0, 0, 0] ⟨0, by norm_num⟩ ≠
      trackDist [exSongA, exSongB] [0, 0, 0, 0] ⟨1, by norm_num⟩ := by
    rw [exDistA, exDistB]; norm_num
  have hdist : ∀ a b : Fin ([exSongA, exSongB].length), a ≠ b →
      trackDist [exSongA, exSongB] [0, 0, 0, 0] a ≠
        trackDist [exSongA, exSongB] [0, 0, 0, 0] b := by
    intro a b hab
    fin_cases a <;> fin_cases b <;> first
      | exact absurd rfl hab
      | exact hAB
      | exact Ne.symm hAB
  have hmin : ∀ k, trackDist [exSongA, exSongB] [0, 0, 0, 0] ⟨0, by norm_num⟩ ≤
      trackDist [exSongA, exSongB] [0, 0, 0, 0] k := by
    intro k
    fin_cases k
    · exact le_refl _
    · rw [exDistA, exDistB]; norm_num
  exact ⟨h.1, h.2.1, h.2.2.1,
    h.2.2.2 ⟨0, by norm_num⟩ ⟨1, by norm_num⟩ hdist hmin
      (by intro hq; simp [Fin.ext_iff] at hq)⟩

theorem calc_prob_pos (songs : List Song) (u : List ℝ) (T : ℝ) (hne : songs ≠ []) :
    ∀ p ∈ calculate_probabilities songs u T, 0 < p := by
  intro p hp
  rw [calc_prob_eq] at hp
  rcases List.mem_map.1 hp with ⟨w, hw, rfl⟩
  exact div_pos (weights_pos songs u T w hw) (weights_sum_pos songs u T hne)

/-- C2 counterexample: for the empty library (N = 0), `np.random.choice`
validates `p` before looking at `size`; the empty probability vector sums to
0, so the call raises `ValueError: probabilities do not sum to 1` instead of
returning an empty order. -/
theorem C2_counterexample :
    generate_playlist_order [] [] 1 (fun k => k) =
      .error "probabilities do not sum to 1" := by
  have hp : calculate_probabilities [] [] 1 = [] := by
    simp [calculate_probabilities]
  rw [generate_playlist_order, hp]
  rw [np_choice_perm]
  rw [if_neg (by simp)]
  rw [if_neg (by simp)]
  rw [if_pos]
  simp only [List.sum_nil, npAtol]
  rw [abs_of_nonpos (by norm_num)]
  norm_num

/-- C2 (amended): for every non-empty library (N ≥ 1), every target mood,
every temperature > 0 and every random stream, `generate_playlist_order`
returns a sequence of length N containing each integer of `[0, N)` exactly
once, and for N = 1 it returns `[0]`; for N = 0 the underlying
`np.random.choice` raises a ValueError instead of returning an empty order
(see the counterexample). -/
theorem C2_permutation (songs : List Song) (u : List ℝ) (T : ℝ) (sel : ℕ → ℕ)
    (hne : songs ≠ []) (hT : 0 < T) :
    ∃ l, generate_playlist_order songs u T sel = .ok l ∧
      l.length = songs.length ∧
      (∀ m, m < songs.length → l.count m = 1) ∧
      (∀ m ∈ l, m < songs.length) ∧
      (songs.length = 1 → l = [0]) := by
  have hpos := calc_prob_pos songs u T hne
  have hsum := calc_prob_sum songs u T hne
  have hlen := calc_prob_length songs u T
  refine ⟨sampleLoop sel 0 (List.range songs.length), ?_, ?_, ?_, ?_, ?_⟩
  · rw [generate_playlist_order, np_choice_perm]
    rw [if_neg (by rw [hlen]; simp)]
    rw [if_neg ?hnn]
    case hnn =>
      rintro ⟨x, hx, hx0⟩
      exact absurd (hpos x hx) (by linarith)
    rw [if_neg ?hsm]
    case hsm =>
      rw [hsum]
      simp only [sub_self, abs_zero, not_lt, npAtol]
      positivity
    rw [if_neg ?hcp]
    case hcp =>
      have : countPos (calculate_probabilities songs u T) =
          (calculate_probabilities songs u T).length := by
        rw [countPos, List.countP_eq_length]
        intro a ha
        simpa using hpos a ha
      omega
  all_goals
    have hperm : (sampleLoop sel 0 (List.range songs.length)).Perm
        (List.range songs.length) := sampleLoop_perm sel 0 _
  · rw [hperm.length_eq, List.length_range]
  · intro m hm
    rw [hperm.count_eq]
    exact List.count_eq_one_of_mem (List.nodup_range _) (List.mem_range.2 hm)
  · intro m hm
    exact List.mem_range.1 (hperm.mem_iff.1 hm)
  · intro h1
    rw [h1] at hperm
    have h2 : List.range 1 = [0] := by simp [List.range_succ]
    rw [h2] at hperm
    rw [h1, h2]
    exact List.perm_singleton.1 hperm

/-- C2 witness: a one-track library with temperature 1 and a constant random
stream; the order is defined, is a permutation of `[0, 1)` and equals `[0]`. -/
theorem C2_permutation_witness :
    ∃ l, generate_playlist_order [exSongA] [] 1 (fun _ => 0) = .ok l ∧
      l.length = [exSongA].length ∧
      (∀ m, m < [exSongA].length → l.count m = 1) ∧
      (∀ m ∈ l, m < [exSongA].length) ∧
      ([exSongA].length = 1 → l = [0]) :=
  C2_permutation [exSongA] [] 1 (fun _ => 0) (by simp) (by norm_num)

theorem exDistFar : mood_similarity [1, 1, 1, 1] [0, 0, 0, 0] = 2 := by
  simp only [mood_similarity, List.zip_cons_cons, List.zip_nil_right, List.map_cons,
    List.map_nil, List.sum_cons, List.sum_nil]
  rw [show ((1:ℝ) - 0) ^ 2 + (((1:ℝ) - 0) ^ 2 + (((1:ℝ) - 0) ^ 2 + (((1:ℝ) - 0) ^ 2 + 0)))
      = 2 ^ 2 by norm_num]
  exact Real.sqrt_sq (by norm_num)

/-- Concrete all-underflow input: one track at distance 2 from the target
with temperature 1/1000; `exp(-2000)` underflows to exactly 0 in float64. -/
theorem exWeightsUnderflow :
    weightsF [exSongA] [1, 1, 1, 1] (1 / 1000) = [0] := by
  simp only [weightsF, List.map_cons, List.map_nil, exSongA]
  rw [exDistFar]
  rw [show -(2:ℝ) / (1 / 1000) = -2000 by norm_num]
  rw [expF, if_pos (by norm_num)]

/-- C3 counterexample: at the concrete all-underflow input every weight is 0
and `calculate_probabilities` silently returns a NaN entry (`none`), raising
no error — its model has no error outcome at all, mirroring the source, which
only emits a runtime warning for `0.0 / 0.0`. -/
theorem C3_counterexample :
    weightsF [exSongA] [1, 1, 1, 1] (1 / 1000) = [0] ∧
    calculate_probabilitiesF [exSongA] [1, 1, 1, 1] (1 / 1000) = [none] := by
  refine ⟨exWeightsUnderflow, ?_⟩
  rw [calculate_probabilitiesF, exWeightsUnderflow]
  simp [fdivNaN]

/-- C3 (amended): when all computed weights underflow to zero,
`calculate_probabilities` does NOT signal an error: it silently returns a
vector of NaN probabilities.  The ordering request is still fatal, but only
downstream: `np.random.choice` inside `generate_playlist_order` rejects the
NaN probabilities with a ValueError. -/
theorem C3_underflow_nan (songs : List Song) (u : List ℝ) (T : ℝ) (sel : ℕ → ℕ)
    (hne : songs ≠ [])
    (hz : ∀ w ∈ weightsF songs u T, w = 0) :
    (∀ x ∈ calculate_probabilitiesF songs u T, x = none) ∧
    generate_playlist_orderF songs u T sel = .error "probabilities contain NaN" := by
  have hsum : (weightsF songs u T).sum = 0 := List.sum_eq_zero hz
  have hall : ∀ x ∈ calculate_probabilitiesF songs u T, x = none := by
    intro x hx
    rcases List.mem_map.1 hx with ⟨w, hw, rfl⟩
    rw [hsum, fdivNaN, if_pos rfl]
  refine ⟨hall, ?_⟩
  rw [generate_playlist_orderF, np_choice_permF]
  rw [if_neg (by simp [calculate_probabilitiesF, weightsF])]
  rw [if_pos ?hnan]
  case hnan =>
    have hpne : calculate_probabilitiesF songs u T ≠ [] := by
      intro h
      have hl := congrArg List.length h
      simp only [calculate_probabilitiesF, weightsF, List.length_map,
        List.length_nil] at hl
      exact hne (List.length_eq_zero.mp hl)
    obtain ⟨x, hx⟩ := List.exists_mem_of_ne_nil _ hpne
    exact ⟨x, hx, hall x hx⟩

/-- C3 witness: the concrete all-underflow input instantiating the amended
claim. -/
theorem C3_underflow_nan_witness :
    (∀ x ∈ calculate_probabilitiesF [exSongA] [1, 1, 1, 1] (1 / 1000), x = none) ∧
    generate_playlist_orderF [exSongA] [1, 1, 1, 1] (1 / 1000) (fun _ => 0) =
      .error "probabilities contain NaN" :=
  C3_underflow_nan [exSongA] [1, 1, 1, 1] (1 / 1000) (fun _ => 0) (by simp)
    (by intro w hw; rw [exWeightsUnderflow] at hw; simpa using hw)

/-- C4: whenever the audio analysis fails (any exception inside the `try`
block of `auto_generate_mood`), the function does not raise to its caller and
returns exactly the neutral fallback vector `[0.5, 0.5, 0.5, 0.5]`. -/
theorem C4_analysis_fallback (e : String) :
    auto_generate_mood (.error e) = [0.5, 0.5, 0.5, 0.5] := rfl

theorem npClip_unit (x : ℝ) : 0 ≤ npClip x 0 1 ∧ npClip x 0 1 ≤ 1 :=
  ⟨le_min (le_max_right x 0) (by norm_num), min_le_right _ _⟩

/-- C5: for every analysis outcome — any real raw tempo, loudness and
spectral centroid, or a failure — the mood vector produced by
`auto_generate_mood` has exactly 4 components and every component lies in
`[0, 1]`. -/
theorem C5_mood_in_unit_interval (analysis : Except String AudioFeatures) :
    (auto_generate_mood analysis).length = 4 ∧
    (auto_generate_mood analysis).Forall (fun x => 0 ≤ x ∧ x ≤ 1) := by
  cases analysis with
  | error e =>
    refine ⟨rfl, ?_⟩
    simp only [auto_generate_mood, List.Forall]
    norm_num
  | ok f =>
    refine ⟨rfl, ?_⟩
    simp only [auto_generate_mood, List.Forall]
    exact ⟨npClip_unit _, npClip_unit _, npClip_unit _, npClip_unit _⟩

/-- C9: every malformed interactive mood entry — the split pieces do not all
parse as floats, or they parse to a wrong count of values — makes
`ask_user_mood` return exactly the neutral mood `[0.5, 0.5, 0.5, 0.5]`
instead of raising. -/
theorem C9_bad_input_neutral (pf : String → Option ℝ) (raw : String)
    (rand : List ℝ) (hne : pyStrip raw ≠ "")
    (hbad : (pySplitComma (pyStrip raw)).mapM pf = none ∨
      ∀ parts, (pySplitComma (pyStrip raw)).mapM pf = some parts →
        parts.length ≠ 4) :
    ask_user_mood pf raw rand = [0.5, 0.5, 0.5, 0.5] := by
  rw [ask_user_mood, if_neg hne]
  rcases hbad with h | h
  · rw [h]
  · cases hcase : (pySplitComma (pyStrip raw)).mapM pf with
    | none => rfl
    | some parts => exact if_neg (h parts hcase)

/-- C9 witness: the entry `"abc"` with a float parser on which it fails, and
the entry `"1,2"` (wrong arity) with a parser accepting both pieces; both
yield the neutral mood. -/
theorem C9_bad_input_neutral_witness :
    ask_user_mood (fun _ => none) "abc" [] = [0.5, 0.5, 0.5, 0.5] ∧
    ask_user_mood (fun s => if s = "1" then some 1 else some 2) "1,2" [] =
      [0.5, 0.5, 0.5, 0.5] := by
  constructor
  · exact C9_bad_input_neutral (fun _ => none) "abc" [] (by decide)
      (Or.inl rfl)
  · refine C9_bad_input_neutral (fun s => if s = "1" then some 1 else some 2)
      "1,2" [] (by decide) (Or.inr ?_)
    intro parts hp
    have hval : ((pySplitComma (pyStrip "1,2")).mapM
        (fun s => if s = "1" then some (1 : ℝ) else some 2)) = some [1, 2] := rfl
    rw [hval] at hp
    injection hp with h
    subst h
    decide

/-- C10: an interactive mood entry that parses as exactly 4 floats is never
treated as invalid: `ask_user_mood` clamps each component into `[0, 1]` with
`np.clip` and returns the clamped vector, which therefore satisfies the
MoodVector range invariant. -/
theorem C10_out_of_range_clamped (pf : String → Option ℝ) (raw : String)
    (rand : List ℝ) (parts : List ℝ) (hne : pyStrip raw ≠ "")
    (hp : (pySplitComma (pyStrip raw)).mapM pf = some parts)
    (h4 : parts.length = 4) :
    ask_user_mood pf raw rand = parts.map (fun x => npClip x 0 1) ∧
    (parts.map (fun x => npClip x 0 1)).length = 4 ∧
    (parts.map (fun x => npClip x 0 1)).Forall (fun x => 0 ≤ x ∧ x ≤ 1) := by
  refine ⟨?_, by simp [h4], ?_⟩
  · rw [ask_user_mood, if_neg hne, hp]
    exact if_pos h4
  · rw [List.forall_iff_forall_mem]
    intro x hx
    rcases List.mem_map.1 hx with ⟨y, _, rfl⟩
    exact npClip_unit y

/-- Concrete model of `float(...)` on the pieces of the entry
`"5,-3,0.5,0.5"`. -/
noncomputable def exParse : String → Option ℝ :=
  fun s =>
    if s = "5" then some 5
    else if s = "-3" then some (-3)
    else if s = "0.5" then some (1 / 2)
    else none

/-- C10 witness: entering `"5,-3,0.5,0.5"` yields `[1.0, 0.0, 0.5, 0.5]` —
out-of-range components are silently clamped, not rejected. -/
theorem C10_out_of_range_clamped_witness :
    ask_user_mood exParse "5,-3,0.5,0.5" [] = [(1 : ℝ), 0, 1 / 2, 1 / 2] := by
  have h := C10_out_of_range_clamped exParse "5,-3,0.5,0.5" []
    [5, -3, 1 / 2, 1 / 2] (by decide) rfl (by decide)
  rw [h.1]
  have e1 : npClip 5 0 1 = 1 := by
    rw [npClip, max_eq_left (by norm_num), min_eq_right (by norm_num)]
  have e2 : npClip (-3) 0 1 = 0 := by
    rw [npClip, max_eq_right (by norm_num), min_eq_left (by norm_num)]
  have e3 : npClip (1 / 2) 0 1 = 1 / 2 := by
    rw [npClip, max_eq_left (by norm_num), min_eq_left (by norm_num)]
  simp only [List.map_cons, List.map_nil, e1, e2, e3]

/-- Concrete fresh scan result used to instantiate the cache-phase claims. -/
noncomputable def exFresh : List Song := [exSongB]

/-- C6 (amended): `load_cache` returns `None` (absent, not an error) when no
cache file exists; a file that is not syntactically valid JSON makes it raise
(`json.load`'s `JSONDecodeError` is uncaught, fatal); but a file that parses
as JSON is returned as-is with no shape validation whatsoever. -/
theorem C6_load_semantics :
    load_cache .absent = .ok none ∧
    load_cache .invalid = .error "json.decoder.JSONDecodeError" ∧
    (∀ v, load_cache (.valid v) = .ok (some v)) :=
  ⟨rfl, rfl, fun _ => rfl⟩

/-- C6 counterexample: the artifact `{}` exists and cannot be parsed into the
expected shape (a list of track records), yet `load_cache` returns it without
any error, and `main` — since `{}` is falsy — silently falls back to
rescanning, contradicting both "load is a fatal error" and "no silent
fallback to rescanning". -/
theorem C6_counterexample :
    ¬ isLibraryShape (Json.obj []) ∧
    load_cache (CacheFile.valid (Json.obj [])) = .ok (some (Json.obj [])) ∧
    cache_phase false (CacheFile.valid (Json.obj [])) exFresh =
      .ok (true, encodeSongs exFresh, save_cache exFresh) := by
  refine ⟨?_, rfl, ?_⟩
  · rintro ⟨xs, hx, -⟩
    exact Json.noConfusion hx
  · simp only [cache_phase, load_cache]
    exact if_neg (by simp [pyTruthy])

/-- C7 (amended): with the force-rescan flag the cache load step is skipped
entirely — the outcome is the same for every cache state, including a corrupt
one — and the library is always recomputed and the artifact overwritten;
without the flag, any truthy loaded value (in particular any non-empty
library) short-circuits the scan+extraction phase: nothing is re-analyzed,
the cache file is left untouched, and no per-track staleness check occurs.
An empty loaded library, however, does NOT short-circuit (see the
counterexample). -/
theorem C7_rescan_policy (cache : CacheFile) (fresh : List Song) (v : Json)
    (hv : pyTruthy v) :
    cache_phase true cache fresh =
      .ok (true, encodeSongs fresh, save_cache fresh) ∧
    cache_phase false (.valid v) fresh = .ok (false, v, .valid v) := by
  constructor
  · rfl
  · simp only [cache_phase, load_cache]
    exact if_pos hv

/-- C7 witness: a corrupt cache is irrelevant under the force flag, and a
one-element loaded array short-circuits the scan without the flag. -/
theorem C7_rescan_policy_witness :
    cache_phase true CacheFile.invalid exFresh =
      .ok (true, encodeSongs exFresh, save_cache exFresh) ∧
    cache_phase false (CacheFile.valid (Json.arr [Json.null])) exFresh =
      .ok (false, Json.arr [Json.null], CacheFile.valid (Json.arr [Json.null])) :=
  C7_rescan_policy CacheFile.invalid exFresh (Json.arr [Json.null])
    (by simp [pyTruthy])

/-- C7 counterexample: a cached empty library (`[]`, a value `load_cache`
happily returns) does not short-circuit the scan: `[]` is falsy, so the
scan+extraction phase runs and the artifact is overwritten — contradicting
"presence of any library that load() returns short-circuits the entire
scan-and-extraction phase". -/
theorem C7_counterexample :
    load_cache (CacheFile.valid (Json.arr [])) = .ok (some (Json.arr [])) ∧
    cache_phase false (CacheFile.valid (Json.arr [])) exFresh =
      .ok (true, encodeSongs exFresh, save_cache exFresh) := by
  refine ⟨rfl, ?_⟩
  simp only [cache_phase, load_cache]
  exact if_neg (by simp [pyTruthy])

/-- C8: saving a library and loading it back reproduces every field of every
track record exactly: the artifact holds the serialized records, and every
key lookup the pipeline performs on a stored record returns precisely the
original field (string fields verbatim, mood components as exact reals). -/
theorem C8_cache_roundtrip (songs : List Song) :
    load_cache (save_cache songs) = .ok (some (encodeSongs songs)) ∧
    songs.map (fun s => getField (encodeSong s) "file") =
      songs.map (fun s => some (Json.str s.file)) ∧
    songs.map (fun s => getField (encodeSong s) "title") =
      songs.map (fun s => some (Json.str s.title)) ∧
    songs.map (fun s => getField (encodeSong s) "artist") =
      songs.map (fun s => some (Json.str s.artist)) ∧
    songs.map (fun s => getField (encodeSong s) "album") =
      songs.map (fun s => some (Json.str s.album)) ∧
    songs.map (fun s => getField (encodeSong s) "full_title") =
      songs.map (fun s => some (Json.str s.full_title)) ∧
    songs.map (fun s => getField (encodeSong s) "mood_vector") =
      songs.map (fun s => some (Json.arr (s.mood_vector.map Json.num))) :=
  ⟨rfl, rfl, rfl, rfl, rfl, rfl, rfl⟩

end MoodPlayer
